import Mathlib

/-!
Verification of `src/save_resources.py`: a shallow embedding of the
ingestion pipeline (URL partition, GitHub raw-URL rewrite, fetch,
MongoDB persistence, filesystem export) together with proofs of the
specified properties.  External effects (HTTP, `json.loads`,
`insert_one` failure, `json.dump`, file writes) are modelled as oracle
parameters; everything the script itself computes is embedded as an
executable Lean function.
-/

namespace SaveResources

/-- Python `needle in haystack` on strings, over character lists:
`hasSub p s` is `true` when `p` occurs as a contiguous substring of `s`. -/
def hasSub (p : List Char) : List Char → Bool
  | [] => p.isEmpty
  | c :: cs => p.isPrefixOf (c :: cs) || hasSub p cs

/-- Worker for Python `str.replace`: scans left to right, replacing
non-overlapping occurrences greedily; `fuel` bounds the recursion so the
definition is structural (and hence kernel-computable). -/
def replaceAllGo (p r : List Char) : Nat → List Char → List Char
  | _, [] => []
  | 0, s => s
  | fuel + 1, c :: cs =>
    if !p.isEmpty && p.isPrefixOf (c :: cs) then
      r ++ replaceAllGo p r fuel (List.drop p.length (c :: cs))
    else
      c :: replaceAllGo p r fuel cs

/-- Python `s.replace(p, r)` for a nonempty pattern `p`: replace every
occurrence of `p` in `s` by `r`, scanning left to right, leftmost match
first, non-overlapping. -/
def replaceAll (p r s : List Char) : List Char :=
  replaceAllGo p r s.length s

/-- The substring replaced by the raw-content rewrite in
`fetch_github_notebook`. -/
def ghPat : List Char := "github.com".data

/-- The replacement host used by the raw-content rewrite. -/
def rawHost : List Char := "raw.githubusercontent.com".data

/-- The substring deleted by the raw-content rewrite. -/
def blobPat : List Char := "/blob".data

/-- The GitHub raw-content URL rewrite from `fetch_github_notebook`
(src/save_resources.py lines 124-126):
`url.replace("github.com", "raw.githubusercontent.com").replace("/blob", "")`. -/
def ghRewrite (u : String) : String :=
  String.mk (replaceAll blobPat [] (replaceAll ghPat rawHost u.data))

/-- A parsed JSON document (the result of `json.loads`).  Numbers are
modelled as integers; no verified property depends on numeric precision. -/
inductive Json where
  | null : Json
  | bool (b : Bool) : Json
  | num (n : Int) : Json
  | str (s : String) : Json
  | arr (elems : List Json) : Json
  | obj (fields : List (String × Json)) : Json

/-- Python truthiness of a parsed JSON value, as tested by
`if content:` in `save_to_mongodb`: `{}`, `[]`, `""`, `0` and `False`
are all falsy. -/
def jsonTruthy : Json → Bool
  | .null => false
  | .bool b => b
  | .num n => n != 0
  | .str s => s != ""
  | .arr elems => !elems.isEmpty
  | .obj fields => !fields.isEmpty

/-- Outcome of `requests.get`: either a transport-level failure
(`requests.exceptions.RequestException`) or a response carrying a status
code and a body. -/
inductive HttpResult where
  | netError : HttpResult
  | response (status : Nat) (body : String) : HttpResult

/-- `fetch_github_notebook` (lines 121-140), with the HTTP layer
(`requests.get`) and the JSON decoder (`json.loads`; `none` models a
`JSONDecodeError`) passed as oracles.  `raise_for_status` raises for
status codes `≥ 400`; that exception and any transport error are caught
by the `except` clauses and yield `none`, as does an undecodable body. -/
def fetch_github_notebook (http : String → HttpResult)
    (parse : String → Option Json) (url : String) : Option Json :=
  match http (ghRewrite url) with
  | .netError => none
  | .response status body => if status < 400 then parse body else none

/-- One MongoDB document as written by `save_to_mongodb`: exactly the
fields `url`, `content` and `date_saved`. -/
structure Record where
  url : String
  content : Json
  date_saved : Nat

/-- A database write failure (an exception raised by `insert_one`). -/
inductive DbError where
  | writeFailed : DbError

/-- `collection.insert_one` on a run where the write succeeds: appends a
fresh document to the collection, never updating an existing one.  A
run-time database failure is modelled by passing a failing oracle in its
place. -/
def mongoInsert (r : Record) (db : List Record) : Except DbError (List Record) :=
  .ok (db ++ [r])

/-- `save_to_mongodb` (lines 143-163).  `content` is the value produced
by a fetch (`none` for a failed fetch).  A truthy non-dict content is
re-parsed with `json.loads`; `json.loads` applied to a non-string raises
`TypeError`, which the source catches and turns into "no record
written".  The call to `insert_one` is NOT inside a `try` block in the
source, so an error from the `insert` oracle propagates to the caller. -/
def save_to_mongodb (parse : String → Option Json) (now : Nat)
    (insert : Record → List Record → Except DbError (List Record))
    (url : String) (content : Option Json) (db : List Record) :
    Except DbError (List Record) :=
  match content with
  | none => .ok db
  | some j =>
    if jsonTruthy j then
      match j with
      | .obj fields => insert ⟨url, .obj fields, now⟩ db
      | .str s =>
        match parse s with
        | some v => insert ⟨url, v, now⟩ db
        | none => .ok db
      | _ => .ok db
    else .ok db

/-- `process_colab_links` (lines 166-170): the loop body is a bare
string literal (the original code is commented out), so the function
takes no oracle at all — it performs no fetch, no credential lookup and
no database write — and falls through returning Python `None`.  The
returned pair is the untouched database together with that `None`. -/
def process_colab_links (links : List String) (db : List Record) :
    List Record × Option Unit :=
  (db, none)

/-- `process_github_links` (lines 173-177): fetch then save, one link at
a time; an error escaping `save_to_mongodb` aborts the remaining
iterations. -/
def process_github_links (http : String → HttpResult)
    (parse : String → Option Json) (now : Nat)
    (insert : Record → List Record → Except DbError (List Record)) :
    List String → List Record → Except DbError (List Record)
  | [], db => .ok db
  | link :: rest, db =>
    match save_to_mongodb parse now insert link
        (fetch_github_notebook http parse link) db with
    | .error e => .error e
    | .ok db2 => process_github_links http parse now insert rest db2

/-- The module-level configuration check (lines 23-25): `os.getenv`
yields `none` when the variable is unset, and `if not mongo_uri` also
treats the empty string as missing; a `ValueError` is raised before any
work begins. -/
def startupCheck (env : Option String) : Except String String :=
  match env with
  | none => .error "Missing MONGODB_URI in environment variables"
  | some s =>
    if s = "" then .error "Missing MONGODB_URI in environment variables"
    else .ok s

/-- Python `str.split(sep)` for a one-character separator: always
returns a nonempty list of (possibly empty) pieces. -/
def splitOnChar (sep : Char) : List Char → List (List Char)
  | [] => [[]]
  | c :: cs =>
    if c = sep then [] :: splitOnChar sep cs
    else
      match splitOnChar sep cs with
      | [] => [[c]]
      | piece :: rest => (c :: piece) :: rest

/-- Python `"_".join(parts)`. -/
def joinUnderscore : List (List Char) → List Char
  | [] => []
  | [x] => x
  | x :: xs => x ++ '_' :: joinUnderscore xs

/-- The characters of `".ipynb"`. -/
def ipynbSuffix : List Char := ".ipynb".data

/-- The filename derivation of `export_notebooks_from_mongodb`
(lines 195-216), before the final `.ipynb` guard.  `parts[-1]` on a
Python `split` result is total because `split` never returns an empty
list; `getLast?.getD` mirrors that. -/
def exportFilenameRaw (url : List Char) (count : Nat) : List Char :=
  if hasSub "colab.research.google.com".data url then
    "colab_".data ++ (splitOnChar '/' url).getLast?.getD [] ++ ".ipynb".data
  else if hasSub "github.com".data url then
    let parts := splitOnChar '/' (replaceAll "https://github.com/".data [] url)
    let repo := joinUnderscore (parts.take 2)
    let fname := "github_".data ++ repo ++ '_' :: parts.getLast?.getD []
    if hasSub "blob".data fname then replaceAll "blob_".data [] fname else fname
  else
    "notebook_".data ++ Nat.toDigits 10 count ++ ".ipynb".data

/-- The final guard of the export filename (lines 218-220):
`if not filename.endswith(".ipynb"): filename += ".ipynb"`. -/
def ensureIpynb (f : List Char) : List Char :=
  if ipynbSuffix.isSuffixOf f then f else f ++ ipynbSuffix

/-- One successful file write performed by the export loop. -/
structure ExportEvent where
  filename : String
  contents : String

/-- `export_notebooks_from_mongodb` (lines 183-231) as a fold over the
stored records, emitting one file-write event per successfully exported
record.  `dump` stands for `json.dump(content, f, ensure_ascii=False,
indent=2)` — the pretty-printed serialization, an external library call
— and `writeOk` models whether the per-record `try` block completes.
On a failure the exception is caught, the record is skipped, `count` is
not incremented, and the loop continues with the remaining records. -/
def export_notebooks (dump : Json → String) (writeOk : String → String → Bool) :
    List Record → Nat → List ExportEvent
  | [], _ => []
  | r :: rest, count =>
    let fname := String.mk (ensureIpynb (exportFilenameRaw r.url.data count))
    let contents := dump r.content
    if writeOk fname contents then
      ⟨fname, contents⟩ :: export_notebooks dump writeOk rest (count + 1)
    else
      export_notebooks dump writeOk rest count

/-- Modelled from the spec: the "host part" of a URL — the characters
between the first `"//"` and the next `'/'` (empty when no `"//"`
occurs).  Used only to state the spec's claim that the rewrite never
changes the host; the source itself contains no host-extraction code. -/
def hostChars : List Char → List Char
  | '/' :: '/' :: rest => rest.takeWhile (fun c => c ≠ '/')
  | _ :: cs => hostChars cs
  | [] => []

/-- The host part of a URL string (see `hostChars`). -/
def hostPart (u : String) : String := String.mk (hostChars u.data)

/-- The hardcoded `resource_links` list from `main` (lines 383-604),
transcribed verbatim.  The source is missing a comma between lines 527
and 528, so Python implicit string concatenation fuses a Colab URL and a
GitHub URL into the single element at index 290. -/
def resource_links : List String := [
  "https://colab.research.google.com/drive/1hDc7mFYqFKmuHZFxBI6Wmbko0aV7gocT",
  "https://colab.research.google.com/drive/1g5R7yHZ8JZoEC8cBNPg_bmaYct-6hEty",
  "https://colab.research.google.com/drive/1yduCM27PE_hY2iR-Ty2IH8VZYDou7Y8h",
  "https://colab.research.google.com/drive/1EOkyYItM08l6d_hOvqm-6O6meSsSrvO8",
  "https://colab.research.google.com/drive/1JydLf4di0o5cu606jRGwoiDhIo5RkqZV",
  "https://colab.research.google.com/drive/1roIrozam_cPjtJ6NKZvSEBOUvbOe8bjq",
  "https://colab.research.google.com/drive/139kc056PTFtgXt6H2WzGI1PRbe5ZkTqI",
  "https://colab.research.google.com/drive/145zgscHHzhl89W9e9H00VbNAm28tRAaw",
  "https://colab.research.google.com/drive/1WTLnsJQJuVI25GdM35kie0dflKLdmy8E",
  "https://colab.research.google.com/drive/1i7tmFhjubDN9vO93ATnV9zxMsSezgDGk",
  "https://colab.research.google.com/drive/190WfEXBmCYx4ZjxXGa4rjX53BH8JB8aP",
  "https://colab.research.google.com/drive/122fVeH11cRVAAfvTenn7I4H57ZZMSSGP",
  "https://colab.research.google.com/drive/1gk60qbIdO-UJSN6bcGlWJxsdVoOFwwS5",
  "https://colab.research.google.com/drive/13okyapuAjHAW9yIV_ZFN2ma5k5vCdSgu",
  "https://colab.research.google.com/drive/1t_6ycttIeR7HZtXF0wyCDLTCLpeFmuMc",
  "https://colab.research.google.com/drive/1Hdl_gE3cWy9Z_mXR9fwb1R-Gw6GvZAMZ",
  "https://colab.research.google.com/drive/1YVh6E47Z3u2o7jYcR3oyTeWruwTl4W49",
  "https://colab.research.google.com/drive/1qsDMuRE9DWP2lk1b_C2uP_P0KIttICmV",
  "https://colab.research.google.com/drive/1GbXV7XtpPPtEN1ppd_4o3BOzXAlgyQrr",
  "https://colab.research.google.com/drive/1pSoiXMPC6i3NvkY_pTMifGVDG4RgqTQy",
  "https://colab.research.google.com/drive/1QGUkfrJL3Rn29DoPhRtz-6t0_Uw9xrei",
  "https://colab.research.google.com/drive/17X4JvlhhT6_GdCSdQ263Jhu65PVMCG9o",
  "https://colab.research.google.com/drive/1-nVJEOfR9XOuyKmpQqSjJlawS6uaHVZx",
  "https://colab.research.google.com/drive/1MJV2S8smKHFwSAitTeuWaLtdIyD3Bt5e",
  "https://colab.research.google.com/drive/1v-_U9EiMeDa6Wsxfdm1Ci234e0sHMp9u",
  "https://colab.research.google.com/drive/1FT4_F_dBpNgobbWcIyOfLnNVaO9HQE9O",
  "https://colab.research.google.com/drive/1V2Cap_3TyDQ7D5mUy8R1efRuCMsuG-M-",
  "https://colab.research.google.com/drive/11DSqv6r9GOfKej1KPon5pwIRjcEVE74e",
  "https://colab.research.google.com/drive/1QsoHdReuX35Jo3MH5ee5CN0_eYYKd3kG",
  "https://colab.research.google.com/drive/15TUbb_H8mWr4Q1nI0S76PEQH8mO91lmk",
  "https://colab.research.google.com/drive/10sk026PhqzjdNIYfMArhVJ4D5gJKGPcr",
  "https://colab.research.google.com/drive/1aLBdOXuLi6InF4ZtOkNVHHg0yQryP6cH",
  "https://colab.research.google.com/drive/17OurVO4fXdcslY50_gzsw_7QemtvGJga",
  "https://colab.research.google.com/drive/1kJ18kupuA6KKapwZaaVRA_v1I5BrBYp1",
  "https://colab.research.google.com/drive/1Is6bjj4U1yRhgrygElYlgfSrh3NbBtgF",
  "https://colab.research.google.com/drive/1tUsoyGDeBGAEuJcslK9V02vbFKIbp-62",
  "https://colab.research.google.com/drive/1yizmUbmr4jgXCS5n3dSMz0PVIgzL02Qy",
  "https://colab.research.google.com/drive/1B2AcSY0ZJufVMiYJ-3CXzEmcrCjioX2J",
  "https://colab.research.google.com/drive/1qMsouHrne1585Tv_NiqgJw3738jk2_0D",
  "https://colab.research.google.com/drive/1f6ouJtQEQaeofNpFkG5t4RmaiHuTcnQY",
  "https://colab.research.google.com/drive/14GDB76WEzkFePB8WIKDdgHVI_EaBO46E",
  "https://colab.research.google.com/drive/1fq0xYRMdC--fHhI0sWsUcIHUJeD9MsvG",
  "https://colab.research.google.com/drive/13qVZT-3vrjUk5XNFLsXxQYEiYTFf1qIa",
  "https://colab.research.google.com/drive/1ggwzZUA1uMnQr_FqC7QSQbRew8Y486A2",
  "https://colab.research.google.com/drive/1f03dxWYu5wE5R30ZSDH034G0ruKuRN3z",
  "https://colab.research.google.com/drive/1Gk0CYDcFj0uN9cyvTMQ3Wl687M8yPzFw",
  "https://colab.research.google.com/drive/1EEh870raxXpA8mtmuPnuJ7qo__BMFIDY",
  "https://colab.research.google.com/drive/1CnBmoavlYOILmcaWbYXOGz2-kTMYn_ng",
  "https://colab.research.google.com/drive/1RjPP8dLmwAUvmHy9fj-_qizrcUN5fEf6",
  "https://colab.research.google.com/drive/1Eqv6vJVeozU9fYGS4Ry8vQIHNE99vpn3",
  "https://colab.research.google.com/drive/1TMNRAmkoUdFZSQC5zRvuGagGrf0aLxHc",
  "https://colab.research.google.com/drive/1HeF6U_PZpDzAiwJvTsHKQWBTgFwEnMCu",
  "https://colab.research.google.com/drive/1albCVdVIturwxYlJ4PSrD4BnJWruvGo2",
  "https://colab.research.google.com/drive/1Jp9AXercbAOJ2jqzv-AUUCWZedByqjJ9",
  "https://colab.research.google.com/drive/1OKx_83f8eMGBxoL4fLZbbDpWfyQIfFsK",
  "https://colab.research.google.com/drive/14FnkPRMI9ceW6IA8bFW9bkSv1MurFtJA",
  "https://colab.research.google.com/drive/15Q0c3uXnqqzbjzvrDbSMVQR7MTPvzD8v",
  "https://colab.research.google.com/drive/1fO7pM9Mf938DpkLoMP8h2DrVjLIO5x5q",
  "https://colab.research.google.com/drive/1sTDbR6u10OoWPF7eyGXmzbgA2xdd7oR1",
  "https://colab.research.google.com/drive/1yHaKNGEaQf4MkK5aHemPU9cib5NrzBPR",
  "https://colab.research.google.com/drive/1WnYCWt-dCnrl-09EgekV5wbnGZTM-vEv",
  "https://colab.research.google.com/drive/1AEEhcsOiOBvUNqtlGpG3YLoq23Uv9v_M",
  "https://colab.research.google.com/drive/1KU86jhwkxx3wDGxZ2giY-mnlekjfkLBT",
  "https://colab.research.google.com/drive/1h5uEGqzNW9JUsiRxSzLDZvYldsfkFq67",
  "https://colab.research.google.com/drive/1AaBTY6q9To-_DVUSw84PdM9xQ4DwcPXg",
  "https://colab.research.google.com/drive/1W23rgSwhaF1lpSryHbQUlIyNcObdQifp",
  "https://colab.research.google.com/drive/1TuF7CjJWxiOHhZE03D9OIpFMZ0r0JLOs",
  "https://colab.research.google.com/drive/1tU6FHunLbHTokyeD1alFRphfvUFZ0LIW",
  "https://colab.research.google.com/drive/1cbpFdRLkEzjpj-trKIwjSDFCJpgnobnS",
  "https://colab.research.google.com/drive/1XVoE0AfQEkrWmFWD33GhEdvCPChcaJzC",
  "https://colab.research.google.com/drive/1C3ml2IKzkfQnIwJijEAgwP7ZDLxtLVSr",
  "https://colab.research.google.com/drive/1dlj-1Y1YLTCMUpDNbGXcnSYpMHd_Yrdu",
  "https://colab.research.google.com/drive/1jPw7vXaRIXMB0cb2vf9eFX7hFzMFgGbd",
  "https://colab.research.google.com/drive/15v1sVDofWT-9ZpLThxpolTUQBTE__mjg",
  "https://colab.research.google.com/drive/1R29T5XfVEthAmdXKMz62wiaPQeP2w2Sj",
  "https://colab.research.google.com/drive/1R1cyCtIeHEZC152YV7IYfW0BXhcPLAwz",
  "https://colab.research.google.com/drive/1lrfV1u_Vvlb_iL7VxA4A4CG9ftik-9Tt",
  "https://colab.research.google.com/drive/1lMtD3kcbviL1oRWvs60HGNUwMod8mHSM",
  "https://colab.research.google.com/drive/1GHHNmuCXZdcTBlAM9SGNf_wyk1aaaJBK",
  "https://colab.research.google.com/drive/1rDZ8CCcOjRq3bLZ1GcURprxN5ciLRsZO",
  "https://colab.research.google.com/drive/1uLXF7l9uHADf4njs-JHPuZQWyfT0wYoJ",
  "https://colab.research.google.com/drive/13WreSwPato8fiqgVwx5M9RbLjjaUiY1j",
  "https://colab.research.google.com/drive/1NXJ3Q_FUiLSqpmQw_QOrna9z0mkAGjNf",
  "https://colab.research.google.com/drive/1z4iTLMUdipEkN_-TROf2vQabvUzJkFIp",
  "https://colab.research.google.com/drive/1dfqB7YaaGBmRmSR28X5M0p0eLcXZNa3L",
  "https://colab.research.google.com/drive/104rYzDS76j_8Bb-ektFHQiC-srSqQ01m",
  "https://colab.research.google.com/drive/1-hWpHqvUlOjvUoFYse1tZzrrZsu9g812",
  "https://colab.research.google.com/drive/1uWHdHpqBb2ke5hgJv7eE85hsgIl2Kmrq",
  "https://colab.research.google.com/drive/1YxEhdadB28M2VEHvrfCvn_duRFguLXQo",
  "https://colab.research.google.com/drive/1Dav47q_qyv-fmGsdM0DQwCyuQTjNWYzx",
  "https://colab.research.google.com/drive/1beV4OFm9csAZ9bLtZm1CTpy6uC7w0eRg",
  "https://colab.research.google.com/drive/1681uJfiqHm21SLK9xdNHQIG5986VB9XG",
  "https://colab.research.google.com/drive/1IuBWa8x424Ok76XuUNTrSpaSbk8_9MgT",
  "https://colab.research.google.com/drive/1PyhT4TEUyarE_6VrkCqaEF06OAg2sDRS",
  "https://colab.research.google.com/drive/108zblOKusFzNBGVEJOLjDJ6uWyvzdEIz",
  "https://colab.research.google.com/drive/1WX0eowUs3XNrqrsEUok0J18rhNaMQ3Gf",
  "https://colab.research.google.com/drive/1EATs9Kpb0_rEWa7ghaGn5TPHfv6g2FmF",
  "https://colab.research.google.com/drive/1PZD0JAzspS1XqQdhDimdVgSz52wr9K_T",
  "https://colab.research.google.com/drive/1wewqF23HP_wq7syhbjxajiKICJviG4AD",
  "https://colab.research.google.com/drive/1fKXW_dTiSBz547HQwc3HZg7hxc8HFH1v",
  "https://colab.research.google.com/drive/1bgIEFx6oXNeJzBkf54spJaoG0Juthj1C",
  "https://colab.research.google.com/drive/12CPqzr6gcXFGu8xXWF2xmo5aOIA1BIpA",
  "https://colab.research.google.com/drive/1b5RJkQEsZU_PTl8EE6pH3ZkNg5IbKAZS",
  "https://colab.research.google.com/drive/1-KNf9TV8LhqEXfS9qei66iEgIIS0AsIx",
  "https://colab.research.google.com/drive/1Nr0x6IJ-PHdkIoddarZuyt2RKj7QAoW0",
  "https://colab.research.google.com/drive/1VRnKbUeLZ_1npIrVIPp39zxw2HBMQphS",
  "https://colab.research.google.com/drive/1LLRNfFGUmLSiz9AvJeewvDcke--WQFsu",
  "https://colab.research.google.com/drive/1qVob2pA7S6W0i-gM89G1sJUgMB-yEFAb",
  "https://colab.research.google.com/drive/1KSGuRW1oSKGHRONFJ1k9wYu5m8IC5gSQ",
  "https://colab.research.google.com/drive/14Z-EE8JxWaMzpMhGuAw42iB2pwpF3g5F",
  "https://colab.research.google.com/drive/1tE1A2f6Lvuw0PeNCEzGFriRLDTFisImP",
  "https://colab.research.google.com/drive/1mP5R_CLfoeUMKPcpuAngy6NylbWogHff",
  "https://colab.research.google.com/drive/1AjThoDAoA1PskOlZI0ypnSdPv81nHjOt",
  "https://colab.research.google.com/drive/1EeouPjSA17UMwl9xoHqNSUzSAQTXizZr",
  "https://colab.research.google.com/drive/1Gbu24xy5OUuLolJldjgKlF2JDbfxB9JL",
  "https://colab.research.google.com/drive/1TBBBx1SUXGmLPR-JRq2PyzDPRhamJ4x8",
  "https://colab.research.google.com/drive/1hCKQX4pCUEtKL1HIwwspUWR4L9M29-y9",
  "https://colab.research.google.com/drive/112pifLwG1mF6AX2y6KselhlRfx1ktqlD",
  "https://colab.research.google.com/drive/1oTijIwr7AmM-uo54y0xyZl5j0-PSULhz",
  "https://colab.research.google.com/drive/1NMCqqt5xwJH2eMWvbqKrf6W0UjfBcxpA",
  "https://colab.research.google.com/drive/1D1GQs2bhUCvOkiUKGj8zyJpxZemfOcP4",
  "https://colab.research.google.com/drive/1bChECwSc0Er5JMSI-gR9jrHDrpAWm2VO",
  "https://colab.research.google.com/drive/1E0TRSuembTEBMngYsKWIsiBBLTh7UvzR",
  "https://colab.research.google.com/drive/1ocLNT6--45SWzulJqvF6NOOFIHXL16l6",
  "https://colab.research.google.com/drive/1Sdqi25VZ1pi-ch52Z2phv4LPeCQjVm60",
  "https://colab.research.google.com/drive/1IyCnf3umli9wg8JnEMVGoLzIjxbn5X8m",
  "https://colab.research.google.com/drive/11xmLhLQqlTiTh3RLEyvTJzczli5VuA1_",
  "https://colab.research.google.com/drive/19dBDfrY99xp6Q-OeAMYgFI95KTnEkN8w",
  "https://colab.research.google.com/drive/1eexeLCke6TrnERgAOK5JtZsn-7qPHuew",
  "https://colab.research.google.com/drive/1j5DSx_bArNC7BESe065SH8nA-Kjg5_2n",
  "https://colab.research.google.com/drive/1UMx3Va584RvCZAEswngydlNQc7J4WYfU",
  "https://colab.research.google.com/drive/1X5cEb4cTDhtOQGKTnh3xIM7hfNuqiBrr",
  "https://colab.research.google.com/drive/1kunowkFYMxEcJBDMTlyXx7RolgXIA5m8",
  "https://colab.research.google.com/drive/1GEiSYA6Q_e0XKqbOrelqq2qWDcZIrby8",
  "https://colab.research.google.com/drive/1eL1ISeUKsnWOiVFBSIN1r3ii_n2OsmMF",
  "https://colab.research.google.com/drive/1b_TZaffaESbC1w823ON0VS60rlJYDY4b",
  "https://colab.research.google.com/drive/1FqpCKdId72o4wDwurX9mBC-HeZ4pKh62",
  "https://colab.research.google.com/drive/19ASSVegIC5g4ow0kg-Wdk2AvxMBNSbPu",
  "https://colab.research.google.com/drive/1e_B6zcEfTaoG8tyK_ARHWen8CA_Jlwpq",
  "https://colab.research.google.com/drive/179rz8Rw-cBkCnj-V-U2rteTEJ1FrZ7mK",
  "https://colab.research.google.com/drive/13W_u70M_ETDnD4ztcKQX4nlA_oBgf-FX",
  "https://colab.research.google.com/drive/1XS8zt5Sqh4X_yep_wa7ktdQFjwmI0qvY",
  "https://colab.research.google.com/drive/1OmCH5fwxuz4Um3bRX26SJihf2Tp0B4DK",
  "https://colab.research.google.com/drive/1pRPcfbCnVCbYYj0-gXnzWJSPr4V8o4Wc",
  "https://colab.research.google.com/drive/1Q_-TdIPjsr3fSyHqe7FRNdocjVccU0eL",
  "https://colab.research.google.com/drive/1ciiFI3n-O_eDO0tlNb_cDWzrs95jEiW4",
  "https://colab.research.google.com/drive/12zcbPyTDc1Fx8ZrQ1w2r99A3kkHwuOjM",
  "https://colab.research.google.com/drive/12zcbPyTDc1Fx8ZrQ1w2r99A3kkHwuOjM",
  "https://colab.research.google.com/drive/1rxWqWyu5eOhDBiyhTi-xi0cTHEL0foQp",
  "https://colab.research.google.com/drive/1vnLCh10QoQEXFZvJU_Zu8REWPia1Sif4",
  "https://colab.research.google.com/drive/1SSwUGyMXrJ9X4C_nGLKEp8Wbry6aUeZQ",
  "https://colab.research.google.com/drive/1RFb6xeveXObcMnAl97pXKmmKpWl4lOGZ",
  "https://colab.research.google.com/drive/1ONV1rQotAUVnBbXmOpbfqNaGk0aTTrzY",
  "https://colab.research.google.com/drive/1Hm5dW0Hy-65uj-dJ9Deqzfgue4thI1by",
  "https://colab.research.google.com/drive/1u97Qk8wF0-7iXGdXeg_89Nk2igu2nsNK",
  "https://colab.research.google.com/drive/162Hic9leptQZTS0gbm7KeUqh7gL3TQ7C",
  "https://colab.research.google.com/drive/1pEEcN3TZOiCLh6JvKY9jk5pTjbhR0KDY",
  "https://colab.research.google.com/drive/1xIs7zV35ASBRzpGofIxipTjcbKu6DYz0",
  "https://colab.research.google.com/drive/18dD4ilUg3zRsmncTH-GPaXSUJQsWlXJb",
  "https://colab.research.google.com/drive/1I4EXmhhbehIuOhP2vopBLp8FIGyIV8k2",
  "https://colab.research.google.com/drive/1Y8VXPtJGgU8Qzl-PT4YxexFq8qLSsQ2c",
  "https://colab.research.google.com/drive/12Yd8CJ9x_0mXsAFSxSZ4zS6SOQ-qOhee",
  "https://colab.research.google.com/drive/13v6eHXe3SdR5uH1jIKXoXw7dujhUfbUq",
  "https://colab.research.google.com/drive/1TA_mEKy_TkI7z6JszAMv8zWFRLq0r8hU",
  "https://colab.research.google.com/drive/1tPDxh21A8YO7ossbqKphRTGXbeH5dUgG",
  "https://colab.research.google.com/drive/1HjTzi5TmqqOoXZ25hfeCyYd6HU9M1xl8",
  "https://colab.research.google.com/drive/1OkYG5LVnKdm1hTHSuiXOylSvAnBCZNrM",
  "https://colab.research.google.com/drive/1wqTX7HE6irdD9LTSw4gQcZjxnIct1Ojh",
  "https://colab.research.google.com/drive/1jCk3aOzDdP-AGxunwTbYE9eSb3fVjq9m",
  "https://colab.research.google.com/drive/1rGXn2KqpSmTh9pXUHOMy9rX683m9upyq",
  "https://colab.research.google.com/drive/1DSR6kv8iq7bf3sgABd04sO_onFQmIS8A",
  "https://colab.research.google.com/drive/1ixU11jlh_DFvQvOf5Yr1Aeacxy5Bft5N",
  "https://colab.research.google.com/drive/1BMIuB133cAcZdK7ZD9SPxrS2mRFt14fS",
  "https://colab.research.google.com/drive/1b3hor_76hwAF_NNozk9XncubEz2z7n-b",
  "https://colab.research.google.com/drive/1wBPN1ASVVVI2oWxlEqCN4gHJWQFR9l_s",
  "https://colab.research.google.com/drive/1Elkrc_nb7jjEEgxlPDYkr0YW_7we0E9b",
  "https://colab.research.google.com/drive/12TtYWUcVsCObu_eCvz62O8abi6ICtv0G",
  "https://colab.research.google.com/drive/1VkZLT34tIjRhQkxErYHtE7PF0hCnssm9",
  "https://colab.research.google.com/drive/1RokC9JcehmkZEgGrLkOEDvsOl4RMUZXC",
  "https://colab.research.google.com/drive/1fMptzjNbknSmFlvFl6-yCW0qLxaps_a1",
  "https://colab.research.google.com/drive/19gP0P11WnWRiKUKfNl4F0I8vxgNhB7TM",
  "https://colab.research.google.com/drive/1cFadKImyRCNdbmNN7KBeXm5aUkBBM50V",
  "https://colab.research.google.com/drive/1Dm-FPi8zSJOFVp08KK9fEdIY-cka4pQH",
  "https://colab.research.google.com/drive/1a38NStD62o4rcWhDoRbXhlMLwhLpTWGx",
  "https://colab.research.google.com/drive/19VHQnaD8bn6laPf_VCYNdAVbAOEme77U",
  "https://colab.research.google.com/drive/18puQXvXToQIcFtqCWqCNcV983x7t7xc_",
  "https://colab.research.google.com/drive/1iSAiWcVS-Kos4YIRH45lqSWy8MIsLU27",
  "https://colab.research.google.com/drive/1mPNtb09_aIbL8JkY3g8oyHKogaE2ewFV",
  "https://colab.research.google.com/drive/1rTJFTIPhmwrA7-VMBiJDWLaG4ImhVHZr",
  "https://colab.research.google.com/drive/1vB0lXF5N-XZmH6r2yAOyfa872wSYZ6Tc",
  "https://colab.research.google.com/drive/1RNQSqF0CePMOZkahz7YkD9giPAJ5dG_P",
  "https://colab.research.google.com/drive/1QWQdJRDmWaxp3T2BzGrMqwXyotGeLupV",
  "https://colab.research.google.com/drive/1tbv-_-1QkqnAlFoN6EgpI2BXkJtk9RrR",
  "https://colab.research.google.com/drive/18gMTi_n630by9UGRWrsYiacfmp8s3CXZ",
  "https://colab.research.google.com/drive/1xDOT8BRs5-Cb0yOoRbzE_Bpyq944q6T6",
  "https://colab.research.google.com/drive/1dWbmkfQljMtPSxJrmhMZSwoMeJIgK82u",
  "https://colab.research.google.com/drive/1yTh9EtJAZPyrd9oPhtlUm5luNEoPkyil",
  "https://colab.research.google.com/drive/1bF12xQW-NReeRCMLMPiYbFLw29Tyo1Hp",
  "https://colab.research.google.com/drive/159Ga5CgMls1pY-yksikPpcwhSQgwZ-l9",
  "https://colab.research.google.com/drive/1JlaGThNg853GiQKZ7H5dEZAvAABv7Fu-",
  "https://colab.research.google.com/drive/1HmsCq89XnJF6RW5EOwUarSOu-pyFt0sz",
  "https://colab.research.google.com/drive/1AHPKCI37R5a1OuTKuMF_l66KcvUqrZVw",
  "https://colab.research.google.com/drive/1XuA1kSQ3-bgPmDBBa9XtDO10N_CqpZkx",
  "https://colab.research.google.com/drive/1XSAgaRwr_0MMvy3LaSq5PXOLQXnVdX1_",
  "https://colab.research.google.com/drive/1tVY3AImn43JEXMLHM3J2FvDHmce-kQ2n",
  "https://colab.research.google.com/drive/14ym0ITUZmK590cxj3mHnrC_UmcGl9r0K",
  "https://colab.research.google.com/drive/1juViT9WsZfLa6Pm_3Hk2DpPNazz33myl",
  "https://colab.research.google.com/drive/1ZA_cLeFLI1sMFuqdov9iOjaR-cyaxNfZ",
  "https://colab.research.google.com/drive/11wj-FQL4qfeTFOJF5zgxiibVXMDQiV3P",
  "https://colab.research.google.com/drive/1vbtxeniv0rnGRrRZgnplODljMYf6Kc8J",
  "https://colab.research.google.com/drive/1MZwPpXZtdE7Cy16J1Xvtp8B0sPo5k28X",
  "https://colab.research.google.com/drive/1p1KQMPVSqZVPENcfjQJnIxRRLqFEnEuL",
  "https://colab.research.google.com/drive/1RrSoTsQfmRpin-4_Sb0aT-k6GC9OOHjp",
  "https://colab.research.google.com/drive/1Ec3lFPY26gednL47RnW6LaiiiNE7Cnnf",
  "https://colab.research.google.com/drive/1t2xjAl5rt7f5zQb4ErwuAR2G8wN5KyHO",
  "https://colab.research.google.com/drive/1m5dWvlQhDlcxmRS8Cs1nvS9SDrk1_2uI",
  "https://colab.research.google.com/drive/1KsFvVqpSskzrX_q8ZptLMTtXgaN_OQbh",
  "https://colab.research.google.com/drive/1pMOfJph8RtYnm9BIilXyW9_1AX4rICMT",
  "https://colab.research.google.com/drive/1KCf7SbGBmCOrO5JffrpekeYFHYPtSjG3",
  "https://colab.research.google.com/drive/1_4hadG7x_s6fNt4SWoNTfkpIdwLod4tn",
  "https://colab.research.google.com/drive/1f3QA98FdxR7mYkgxEHG9O3YpHNHELKnO",
  "https://colab.research.google.com/drive/1hBWLi0wDXPzFg67h393ny6KfR6QKZwBd",
  "https://colab.research.google.com/drive/1e8NuGFblNrUppm2ZAQ5TJemnFi2rs6EM",
  "https://colab.research.google.com/drive/1DCnk3wk7loqKBWdwk7CckDfvKkEKifNq",
  "https://colab.research.google.com/drive/1e9tHZ2_rOCJfA-JFyWHghZPcUV1KNHHP",
  "https://colab.research.google.com/drive/13u4g-MadpCOkguKt4FE-Gr2etBVCjJf3",
  "https://colab.research.google.com/drive/18h0p_9RpzwjLM1fbNhjGlhyBS9D_NzeM",
  "https://colab.research.google.com/drive/1VZdOalN5KJ9ciDs4TITSGIY0p2p6Qf9k",
  "https://colab.research.google.com/drive/1gT9rkkvbiL5G06tlUO6kLbnS5TpVlRT1",
  "https://colab.research.google.com/drive/168xxCF4XK31Hl-cQwP_gwHx5O57v4dbL",
  "https://colab.research.google.com/drive/1IAKe8xd-ktbDyiKm9FejBJt7mfKdKU1_",
  "https://colab.research.google.com/drive/1p2uvs84fuXi6vQ-2Va6baPsyVYa5jDDl",
  "https://colab.research.google.com/drive/1ZGeOyb-EMbYsABwlK8ztc7deFTPgpvc1",
  "https://colab.research.google.com/drive/1SLVK-OZ8jAaTVHcL11oTOC9RG61HVtol",
  "https://colab.research.google.com/drive/1_3KSEoLSzfrpoF3bPHgHStbiZjpf28IM",
  "https://colab.research.google.com/drive/1t5Qv3_nj33dJ-JakIb-ruAo7TyUHk_0g",
  "https://colab.research.google.com/drive/11zygkh51_5YwBg6z4BM0JNbtnMGaV6HV",
  "https://colab.research.google.com/drive/1KJGOLq3xBDEKMahQ9WCD-twss5MstyLA",
  "https://colab.research.google.com/drive/1V1eNpm6eUX1tvXsiYBT1qukBqAJTo0Pn",
  "https://colab.research.google.com/drive/18f-LtOM0oEcUuTv9avdK4PHY09XZJ4Zg",
  "https://colab.research.google.com/drive/1REPLeWvaI_1Rwp4-04NjE4YLGxe8VxN8",
  "https://colab.research.google.com/drive/1moJ321Yx4izGZ_l3On2icyMkSxrCDVUr",
  "https://colab.research.google.com/drive/1rq9bDlVxq4h00VAHh0oKn4hA1t8FU0N_",
  "https://colab.research.google.com/drive/1QtAfgoTf5S9EaMcc72e9NtFhVdzPSCMF",
  "https://colab.research.google.com/drive/1tBdraksoMqmhTfxZbEqMznGTw_keV20g",
  "https://colab.research.google.com/drive/1qPWYmAlAXgQPJdvVX190V0WGpdfWQk2j",
  "https://colab.research.google.com/drive/1kqYj-L9QZ6XxWhYWY3UI14ra6cFCaavp",
  "https://colab.research.google.com/drive/1PcihIMSebRnHaXv7nheV0I4Fuso5tozi",
  "https://colab.research.google.com/drive/10KVanBlRWiIzKC-LYutcUCS7yZ-0nhyV",
  "https://colab.research.google.com/drive/1nJa5FN14CPLsSuvkw2FyZAiN-jerSErc",
  "https://colab.research.google.com/drive/1Ntp8iKrRcE5Pyw8ryQ2gyRJMYk0LKP9c",
  "https://colab.research.google.com/drive/11aJINCDBu0k-sIwj_wO8bVol1qbWxHox",
  "https://colab.research.google.com/drive/1-RNzLUUnpqzLPhYIAcnf8fKKH4ugsnIG",
  "https://colab.research.google.com/drive/1UJPGcZA4MhU7uqMAlWMW2_KDJR5aom92",
  "https://colab.research.google.com/drive/1t0hn0m0Wlv8Wcp4BFQ6XywQkOHEmG_Ow",
  "https://colab.research.google.com/drive/1WcWq8ovFMHeRoXrIBUth0VSsrtyLWEZq",
  "https://colab.research.google.com/drive/1D0FrsHrGFf4tRhsyryEOjZVtvgtU8Ges",
  "https://colab.research.google.com/drive/1tmE-0L3G-7TWqdqosXF6KFodPiS7qtn2",
  "https://colab.research.google.com/drive/1Lnau4aYaXm-Z5GJL8neOTQgNZLgeh0DD",
  "https://colab.research.google.com/drive/1Wye4ydy82WVGJzXrcrSCnONZ7lYv42nR",
  "https://colab.research.google.com/drive/13IildFxb0RAvIP6etVxmz67weZo0EmH3",
  "https://colab.research.google.com/drive/1pEKOc0jV9SxBjz2vsoLKLhjOcpbXzACf",
  "https://colab.research.google.com/drive/1NKY9Nii3rlJ7chcZAu8mxONP5PPv8QJ_",
  "https://colab.research.google.com/drive/1JGJV-FzQVgBTFu4nogdwDFjcbK56EOSW",
  "https://colab.research.google.com/drive/14WETZlivuguC1RMHxXGEsu5c8Ktoil45",
  "https://colab.research.google.com/drive/1NwxJ-Vn-eW0cq4gNy2-UVg1ntcIfB79y",
  "https://colab.research.google.com/drive/1S-5k7mLrYxtnMpLjcAcx5CrgRISD0EFA",
  "https://colab.research.google.com/drive/1P7SS4zLcWDjb1AWayz3q7_XMR7vcjY9U",
  "https://colab.research.google.com/drive/1jL9q-k-YeFwrALnH6cFB5c3tobolyzA4",
  "https://colab.research.google.com/drive/1-Gwypz74EkRKnrPuxEjDlGPavGzsscTu",
  "https://colab.research.google.com/drive/1uv8yW98myk8rFy2abU5FZ6dqeufiFvEq",
  "https://colab.research.google.com/drive/1fhFoyumQLEEs5oWsg4yPQCKdKxDikzmv",
  "https://colab.research.google.com/drive/1uH7-nTCIA4m1Tnz_ilhukUjsPYr2Wq4q",
  "https://colab.research.google.com/drive/1Cm229-UDPGz-Us6L8zyAJkMkUkttvg8p",
  "https://colab.research.google.com/drive/1CQnAZybIxxftwYxV3AVi0QHpojEAFiQy",
  "https://colab.research.google.com/drive/1yy-eSIlEDhnXMJIr89sRy5uF1PcZpBbd",
  "https://colab.research.google.com/drive/1rrwpPn2KVyNDf896x_H1fJKlb3-XmBSv",
  "https://colab.research.google.com/drive/1X_9cErCZOn-AjtLQo_xsDUMEeDjlNBDQ",
  "https://colab.research.google.com/drive/1kHQKHLyvpXeY-Ff4lAP59lzaDj5zKTCo",
  "https://colab.research.google.com/drive/1aiFZF7GU3GXvetlUjfOIKgTeE1SDZzTK",
  "https://colab.research.google.com/drive/1R8V17_B2Hqkj9ptmsCw_hpynE0wXpvXX",
  "https://colab.research.google.com/drive/1EvzcMjvMpduSruXR3xb0RYm5iysp3JyJ",
  "https://colab.research.google.com/drive/1nDbjUxI6GbuF1Tcu-V63oNN15KFV-jei",
  "https://colab.research.google.com/drive/1KkVpHg38c4eqvRf4u9FzJ0baHZ1WEUcn",
  "https://colab.research.google.com/drive/1lLfxAlzZvbeksgRs-Y9pM_JXNItj6pYA",
  "https://colab.research.google.com/drive/1vrehOjro9y2QZ5AVe3Ntni4Y3mlv6dUT",
  "https://colab.research.google.com/drive/1p6LljAc5ukWZX4xifabbEN3FheALXKgk",
  "https://colab.research.google.com/drive/1ZB-gyIWR7ZxxeYomciKjUtcKojpTZnnd",
  "https://colab.research.google.com/drive/1gW19iDZG4BXXn6WMfDjc2-2ybzF6_0-q",
  "https://colab.research.google.com/drive/1blUn4JGSWBf-odSb0yGlTi8P2km_30xY",
  "https://colab.research.google.com/drive/16BhLaHexd9_7DuajUw7Jg8aOlcxhhLQThttps://github.com/ds-modules/LINGUIS-110/blob/master/FormantsUpdated/Assignment.ipynb",
  "https://github.com/ds-modules/LINGUIS-110/blob/master/VOT/Assignment.ipynb",
  "https://github.com/ds-modules/SOC-130AC/blob/master/clean-data-extract-coordinates.ipynb",
  "https://github.com/ds-modules/ECON-101B/blob/master/Previous/Problem%20Set%201/Problem%20Set%201.ipynb",
  "https://github.com/ds-modules/ECON-101B/blob/master/Problem%20Set%203/flex_price.ipynb",
  "https://github.com/ds-modules/XENGLIS-31AC",
  "https://github.com/ds-modules/PSYCH-167AC/blob/master/01-Intro-to-Importing-Data-Tables-Graphs.ipynb",
  "https://github.com/ds-modules/PSYCH-167AC/blob/master/02-Correlation-Regression.ipynb",
  "https://github.com/ds-modules/PSYCH-167AC/blob/master/03-My-Project.ipynb",
  "https://github.com/ds-modules/XRHETOR-R1A/blob/master/01%20-%20Data%20Science%20in%20xRhetoric%20Intro/01%20-%20Data%20Science%20in%20xRhetoric%20Intro.ipynb",
  "https://github.com/ds-modules/XRHETOR-R1A/blob/master/02-Moral-Foundations-Analysis/02-Moral-Foundations-Theory.ipynb",
  "https://github.com/ds-modules/XRHETOR-R1A/blob/master/03-Rhetoric-of-Data/03-Rhetoric-of-Data-2018.ipynb",
  "https://github.com/ds-modules/CUNEIF-102A/blob/master/Notebook-Part1-Intro%26TextAnalysis.ipynb",
  "https://github.com/ds-modules/CUNEIF-102A/blob/master/Notebook-Part2-Visualization.ipynb",
  "https://github.com/ds-modules/LEGALST-190/blob/master/labs/3-22/3-22_EDA_Solutions.ipynb",
  "https://github.com/ds-modules/ANTH-115/blob/main/notebook1/Notebook%201.ipynb",
  "https://github.com/ds-modules/ANTH-115/blob/main/notebook2/Notebook%202.ipynb",
  "https://github.com/ds-modules/ANTH-115/blob/main/notebook3/Notebook%203.ipynb",
  "https://github.com/ds-modules/Art-Studio-Code/blob/main/Extract_Color_Utility.ipynb",
  "https://github.com/ds-modules/Art-Studio-Code/blob/main/artworksEDAv02.ipynb",
  "https://github.com/ds-modules/ART-W23AC/blob/master/Module%202%20-%20Social%20Network%20Evolution/notebook.ipynb",
  "https://github.com/ds-modules/Bio-1B/blob/master/Darwin%20Finches/Jupyter%20Introduction%20Darwin\x27s%20Finches%20-%20July24.ipynb",
  "https://github.com/ds-modules/Bio-1B/blob/master/Mousey/Mousey.ipynb",
  "https://github.com/ds-modules/Bio-1B/blob/master/Predator%20Prey/Predator%20Prey%20Notebook.ipynb",
  "https://github.com/ds-modules/CE200B/blob/main/HW1.ipynb",
  "https://github.com/ds-modules/CE200B/blob/main/HW2/HW2.ipynb",
  "https://github.com/ds-modules/CE200B/blob/main/HW3.ipynb",
  "https://github.com/ds-modules/CIVENG-190/blob/main/Notebook%202/NB2%20Google%20Street%20View%20Monitoring.ipynb",
  "https://github.com/ds-modules/CIVENG-190/blob/main/Notebook%203/NB3%20Electrical%20Vehicle%20Charging.ipynb",
  "https://github.com/ds-modules/CIVENG-190/blob/main/Notebook%204/NB4%20Coastal%20Resilience.ipynb",
  "https://github.com/ds-modules/CIVENG-190/blob/main/Notebook%205/NB5%20Wastewater%20Monitoring.ipynb",
  "https://github.com/ds-modules/DATA88-SP22/blob/main/Lecture1/lecture1.ipynb",
  "https://github.com/ds-modules/DATA88-SP22/blob/main/Lecture2/lecture2.ipynb",
  "https://github.com/ds-modules/DATA88-SP22/blob/main/Lecture3/lecture3.ipynb",
  "https://github.com/ds-modules/DATA88-SP22/blob/main/Lecture4/lecture4.ipynb",
  "https://github.com/ds-modules/DATA88-SP22/blob/main/Lecture5/lecture5.ipynb",
  "https://github.com/ds-modules/DATA88-SP22/blob/main/Lecture6/lecture6.ipynb",
  "https://github.com/ds-modules/DATA88-SP22/blob/main/Lecture7/lecture7.ipynb",
  "https://github.com/ds-modules/DATA88-SP22/blob/main/Lecture8/lecture8.ipynb",
  "https://github.com/ds-modules/DATA88-SP22/blob/main/Lecture9/lecture9.ipynb",
  "https://github.com/ds-modules/ECON-101B/blob/master/Intro%20(Problem%20Set%201)/PS1.ipynb",
  "https://github.com/ds-modules/ECON-101B/blob/master/Problem%20Set%203/flex_price.ipynb",
  "https://github.com/ds-modules/ECON-130-FA24/blob/main/Section4/Section%204%20-%20Intro%20to%20Jupyter%20and%20R%20.ipynb",
  "https://github.com/ds-modules/ECON-140-SP23-SB/blob/main/ps1/ps1.ipynb",
  "https://github.com/ds-modules/ECON-140-SP23-SB/blob/main/ps2/ps2.ipynb",
  "https://github.com/ds-modules/ECON-140-SP23-SB/blob/main/ps3/ps3.ipynb",
  "https://github.com/ds-modules/ECON-140-SP23-SB/blob/main/ps4/ps4.ipynb",
  "https://github.com/ds-modules/ECON-140-SP23-SB/blob/main/ps5/ps5.ipynb",
  "https://github.com/ds-modules/ECON-144-SP24/blob/main/ps1/ps1.ipynb",
  "https://github.com/ds-modules/ECON-144-SP24/blob/main/ps2/ps2.ipynb",
  "https://github.com/ds-modules/ECON-144-SP24/blob/main/ps3/ps3.ipynb",
  "https://github.com/ds-modules/ECON-144-SP24/blob/main/ps4/ps4.ipynb",
  "https://github.com/ds-modules/EDUC-223B/blob/master/02-Prediction.ipynb",
  "https://github.com/ds-modules/EEP-147-SP24/blob/main/ESG-Analysis/ESG_Analysis_v2025.1.ipynb",
  "https://github.com/ds-modules/EPS-115-SP20/blob/master/IC_Flexure/Flex2D.ipynb",
  "https://github.com/ds-modules/EPS-115-SP20/blob/master/IC_Grain_Settling/IC_Grain_Settling.ipynb",
  "https://github.com/ds-modules/EPS-115-SP20/blob/master/IC_sandstone_ternary/.ipynb_checkpoints/sandstone_ternary_diagram-checkpoint.ipynb",
  "https://github.com/ds-modules/EPS-115-SP20/blob/master/P1_Chemical_Weathering/P1_Chemical_Weathering_Python_Intro.ipynb",
  "https://github.com/ds-modules/EPS-115-SP20/blob/master/P2_Sediment_Transport/P2_Settling_Bedforms.ipynb",
  "https://github.com/ds-modules/EPS-115-SP20/blob/master/P3_Basin_Development/P3_Basin_Development.ipynb",
  "https://github.com/ds-modules/EPS-115-SP20/blob/master/P4_Carbon_PETM/P4_Carbon_PETM.ipynb",
  "https://github.com/ds-modules/EPS-130-SP22/blob/main/EPS_Homework1/eps130_hw1_gutenberg_richter_v3.0.ipynb",
  "https://github.com/ds-modules/EPS-130-SP22/blob/main/EPS_Homework2/eps130_hw2_forecasting.ipynb",
  "https://github.com/ds-modules/EPS-130-SP22/blob/main/EPS130_Homework5/eps130_hw5_seismicRefraction_v3.0.ipynb",
  "https://github.com/ds-modules/EPS-130-SP22/blob/main/EPS130_Homework6/eps130_hw6_seismicRays_v2.0_assignment.ipynb",
  "https://github.com/ds-modules/EPS-130-SP22/blob/main/EPS130_Homework7/eps130_hw7_surfacewaves_assignment.ipynb",
  "https://github.com/ds-modules/EPS-C20/blob/master/01-EWT/warning_relationships.py",
  "https://github.com/ds-modules/EPS-C20/blob/master/02-MAG/MagPlay.ipynb",
  "https://github.com/ds-modules/EPS88-24031-FA23/blob/main/week01_datahubfiles/W01_assignment_seafloor.ipynb",
  "https://github.com/ds-modules/EPS88-24031-FA23/blob/main/week01_datahubfiles/W01_inclass_elevation.ipynb",
  "https://github.com/ds-modules/EPS88-24031-FA23/blob/main/week02_datahubfiles/W02_assignment_Earthquakes.ipynb",
  "https://github.com/ds-modules/EPS88-24031-FA23/blob/main/week02_datahubfiles/w02_inclass_earthquake.ipynb",
  "https://github.com/ds-modules/EPS88-24031-FA23/blob/main/week03_datahubfiles/Week03_inclass_seafloor_spreading.ipynb",
  "https://github.com/ds-modules/ETHSTD-22AC-SP23/blob/main/Lecture_1.ipynb",
  "https://github.com/ds-modules/ETHSTD-22AC-SP23/blob/main/Lecture_2.ipynb",
  "https://github.com/ds-modules/ETHSTD-22AC-SP23/blob/main/Lecture_3.ipynb"
  ]

/-- `colab_links` (lines 606-608): the sublist selected by the substring
filter `"colab.research.google.com" in x`. -/
def colab_links : List String :=
  resource_links.filter (fun x => hasSub "colab.research.google.com".data x.data)

/-- `github_links` (line 609): the sublist selected by the substring
filter `"github.com" in x`. -/
def github_links : List String :=
  resource_links.filter (fun x => hasSub "github.com".data x.data)

/-- The element of `resource_links` produced by the missing comma: the
implicit concatenation of a Colab URL and a GitHub URL. -/
def mergedLink : String :=
  "https://colab.research.google.com/drive/16BhLaHexd9_7DuajUw7Jg8aOlcxhhLQThttps://github.com/ds-modules/LINGUIS-110/blob/master/FormantsUpdated/Assignment.ipynb"

/-- The GitHub URL that appears literally twice in `resource_links`
(indices 294 and 331). -/
def dupGithubLink : String :=
  "https://github.com/ds-modules/ECON-101B/blob/master/Problem%20Set%203/flex_price.ipynb"

/-- `main` (lines 606-618): partition the hardcoded list by the substring
filters, run the (no-op) Colab pass, then the GitHub pass. -/
def mainRun (http : String → HttpResult) (parse : String → Option Json)
    (now : Nat) (insert : Record → List Record → Except DbError (List Record))
    (db : List Record) : Except DbError (List Record) :=
  process_github_links http parse now insert github_links
    (process_colab_links colab_links db).1

/-! ### Basic lemmas about the string model -/

theorem isPrefixOfEq {l₁ l₂ : List Char} : l₁.isPrefixOf l₂ = true ↔ l₁ <+: l₂ :=
  List.isPrefixOf_iff_prefix

theorem hasSub_iff {p s : List Char} : hasSub p s = true ↔ p <:+: s := by
  induction s with
  | nil => simp [hasSub, List.isEmpty_iff, List.infix_nil]
  | cons c cs ih =>
    simp [hasSub, Bool.or_eq_true, ih, List.infix_cons_iff, isPrefixOfEq]

theorem hit_of_pre {p : List Char} (hp : p ≠ []) {c : Char} {cs : List Char}
    (h : p <+: (c :: cs)) : (!p.isEmpty && p.isPrefixOf (c :: cs)) = true := by
  rw [Bool.and_eq_true]
  refine ⟨?_, isPrefixOfEq.mpr h⟩
  cases hq : p.isEmpty with
  | true => exact absurd (List.isEmpty_iff.mp hq) hp
  | false => rfl

theorem miss_of_not_pre {p : List Char} {c : Char} {cs : List Char}
    (h : ¬ p <+: (c :: cs)) : ¬ (!p.isEmpty && p.isPrefixOf (c :: cs)) = true := by
  intro hc
  rw [Bool.and_eq_true] at hc
  exact h (isPrefixOfEq.mp hc.2)

theorem replaceAllGo_fuel {p r : List Char} :
    ∀ f₁ f₂ s, s.length ≤ f₁ → s.length ≤ f₂ →
      replaceAllGo p r f₁ s = replaceAllGo p r f₂ s := by
  intro f₁
  induction f₁ with
  | zero =>
    intro f₂ s h₁ _
    have hs : s = [] := List.length_eq_zero.mp (Nat.le_zero.mp h₁)
    subst hs
    cases f₂ <;> rfl
  | succ f ih =>
    intro f₂ s h₁ h₂
    cases s with
    | nil => cases f₂ <;> rfl
    | cons c cs =>
      cases f₂ with
      | zero => exact absurd h₂ (by simp)
      | succ g =>
        simp only [replaceAllGo]
        by_cases hc : (!p.isEmpty && p.isPrefixOf (c :: cs)) = true
        · rw [if_pos hc, if_pos hc]
          have hpne : p ≠ [] := by
            intro h0
            subst h0
            simp at hc
          have hplen : 0 < p.length := List.length_pos.mpr hpne
          have hcs₁ : cs.length ≤ f := by
            simpa using Nat.le_of_succ_le_succ (by simpa using h₁)
          have hcs₂ : cs.length ≤ g := by
            simpa using Nat.le_of_succ_le_succ (by simpa using h₂)
          have hd₁ : (List.drop p.length (c :: cs)).length ≤ f := by
            simp only [List.length_drop, List.length_cons]
            omega
          have hd₂ : (List.drop p.length (c :: cs)).length ≤ g := by
            simp only [List.length_drop, List.length_cons]
            omega
          rw [ih g (List.drop p.length (c :: cs)) hd₁ hd₂]
        · rw [if_neg hc, if_neg hc]
          have hcs₁ : cs.length ≤ f := by
            simpa using Nat.le_of_succ_le_succ (by simpa using h₁)
          have hcs₂ : cs.length ≤ g := by
            simpa using Nat.le_of_succ_le_succ (by simpa using h₂)
          rw [ih g cs hcs₁ hcs₂]

theorem replaceAll_cons_hit {p : List Char} (r : List Char) {c : Char}
    {cs : List Char} (h : (!p.isEmpty && p.isPrefixOf (c :: cs)) = true) :
    replaceAll p r (c :: cs) = r ++ replaceAll p r (List.drop p.length (c :: cs)) := by
  have hpne : p ≠ [] := by
    intro h0
    subst h0
    simp at h
  have hplen : 0 < p.length := List.length_pos.mpr hpne
  show replaceAllGo p r (c :: cs).length (c :: cs) = _
  rw [List.length_cons]
  simp only [replaceAllGo, if_pos h]
  congr 1
  exact replaceAllGo_fuel cs.length (List.drop p.length (c :: cs)).length _
    (by simp only [List.length_drop, List.length_cons]; omega) (le_refl _)

theorem replaceAll_cons_miss {p : List Char} (r : List Char) {c : Char}
    {cs : List Char} (h : ¬ (!p.isEmpty && p.isPrefixOf (c :: cs)) = true) :
    replaceAll p r (c :: cs) = c :: replaceAll p r cs := by
  show replaceAllGo p r (c :: cs).length (c :: cs) = _
  rw [List.length_cons]
  simp only [replaceAllGo, if_neg h]
  rfl

theorem replaceAll_skip {p r s : List Char} (h : ¬ p <:+: s) :
    replaceAll p r s = s := by
  induction s with
  | nil => rfl
  | cons c cs ih =>
    have hm : ¬ (!p.isEmpty && p.isPrefixOf (c :: cs)) = true :=
      miss_of_not_pre (fun hpre => h (List.IsPrefix.isInfix hpre))
    rw [replaceAll_cons_miss r hm, ih (fun hin => h (List.infix_cons hin))]

theorem replaceAll_at (p r : List Char) (hp : p ≠ []) :
    ∀ x y, ¬ p <:+: (x ++ p.dropLast) →
      replaceAll p r (x ++ p ++ y) = x ++ r ++ replaceAll p r y := by
  intro x
  induction x with
  | nil =>
    intro y _
    obtain ⟨d, ds, hd⟩ := List.exists_cons_of_ne_nil hp
    simp only [List.nil_append]
    rw [hd, List.cons_append]
    rw [replaceAll_cons_hit r (hit_of_pre (by simp) (by
      rw [← List.cons_append]
      exact List.prefix_append _ _))]
    rw [show List.drop (d :: ds).length (d :: (ds ++ y)) = y from by
      rw [← List.cons_append]
      exact List.drop_left _ _]
  | cons a x' ih =>
    intro y hnot
    have hmiss : ¬ p <+: (a :: (x' ++ p ++ y)) := by
      intro hppre
      have hppre' : p <+: ((a :: x') ++ p ++ y) := by
        simpa [List.cons_append, List.append_assoc] using hppre
      have hsplit : (a :: x') ++ p ++ y
          = ((a :: x') ++ p.dropLast) ++ ([p.getLast hp] ++ y) := by
        conv_lhs => rw [← List.dropLast_append_getLast hp]
        simp [List.append_assoc]
      have hx : ((a :: x') ++ p.dropLast) <+: ((a :: x') ++ p ++ y) := by
        rw [hsplit]
        exact List.prefix_append _ _
      have hplen : 0 < p.length := List.length_pos.mpr hp
      have hlen : p.length ≤ ((a :: x') ++ p.dropLast).length := by
        simp only [List.length_append, List.length_cons, List.length_dropLast]
        omega
      exact hnot (List.IsPrefix.isInfix
        (List.prefix_of_prefix_length_le hppre' hx hlen))
    have hnot' : ¬ p <:+: (x' ++ p.dropLast) := by
      intro hin
      exact hnot (by simpa [List.cons_append] using List.infix_cons hin)
    simp only [List.cons_append]
    rw [replaceAll_cons_miss r (miss_of_not_pre hmiss)]
    rw [ih y hnot']

theorem infixAppendCases {p x y : List Char} (h : p <:+: (x ++ y)) :
    p <:+: x ∨ p <:+: y ∨
      ∃ p₁ p₂, p = p₁ ++ p₂ ∧ p₁ ≠ [] ∧ p₂ ≠ [] ∧ p₁ <:+ x ∧ p₂ <+: y := by
  induction x with
  | nil => exact Or.inr (Or.inl (by simpa using h))
  | cons a x' ih =>
    rw [List.cons_append, List.infix_cons_iff] at h
    rcases h with hpre | hins
    · have hpre' : p <+: (a :: x') ++ y := by simpa [List.cons_append] using hpre
      by_cases hlen : p.length ≤ (a :: x').length
      · exact Or.inl (List.IsPrefix.isInfix
          (List.prefix_of_prefix_length_le hpre' (List.prefix_append _ _) hlen))
      · have hxp : (a :: x') <+: p :=
          List.prefix_of_prefix_length_le (List.prefix_append _ _) hpre'
            (le_of_not_le hlen)
        obtain ⟨t, ht⟩ := hxp
        refine Or.inr (Or.inr ⟨a :: x', t, ht.symm, by simp, ?_,
          List.suffix_refl _, ?_⟩)
        · intro h0
          subst h0
          rw [List.append_nil] at ht
          exact hlen (le_of_eq (by rw [ht]))
        · have hpy : (a :: x') ++ t <+: (a :: x') ++ y := ht ▸ hpre'
          exact (List.prefix_append_right_inj _).mp hpy
    · rcases ih hins with h1 | h2 | ⟨p₁, p₂, he, h1, h2, hs, hpp⟩
      · exact Or.inl (List.infix_cons h1)
      · exact Or.inr (Or.inl h2)
      · exact Or.inr (Or.inr ⟨p₁, p₂, he, h1, h2,
          hs.trans (List.suffix_cons a x'), hpp⟩)

theorem notInfixSplit {p x y : List Char}
    (hx : ¬ p <:+: x) (hy : ¬ p <:+: y)
    (hspan : ∀ k, k < p.length → 0 < k → ¬ (List.take k p) <:+ x) :
    ¬ p <:+: (x ++ y) := by
  intro h
  rcases infixAppendCases h with h1 | h2 | ⟨p₁, p₂, he, h1, h2, hs, _⟩
  · exact hx h1
  · exact hy h2
  · have hk : p₁ = List.take p₁.length p := by rw [he, List.take_left]
    have hlt : p₁.length < p.length := by
      rw [he, List.length_append]
      have : 0 < p₂.length := List.length_pos.mpr h2
      omega
    have hpos : 0 < p₁.length := List.length_pos.mpr h1
    exact hspan p₁.length hlt hpos (hk ▸ hs)

theorem notInfixHeadSplit {p x : List Char} {c : Char} {y : List Char}
    (hx : ¬ p <:+: x) (hy : ¬ p <:+: (c :: y))
    (hhead : ∀ k, k < p.length → 0 < k → (List.drop k p).head? ≠ some c) :
    ¬ p <:+: (x ++ (c :: y)) := by
  intro h
  rcases infixAppendCases h with h1 | h2 | ⟨p₁, p₂, he, h1, h2, hs, hp2⟩
  · exact hx h1
  · exact hy h2
  · have hd : p₂ = List.drop p₁.length p := by rw [he, List.drop_left]
    obtain ⟨d, ds, hds⟩ := List.exists_cons_of_ne_nil h2
    have hdc : d = c := by
      rw [hds] at hp2
      exact (List.cons_prefix_cons.mp hp2).1
    have hlt : p₁.length < p.length := by
      rw [he, List.length_append]
      have : 0 < p₂.length := List.length_pos.mpr h2
      omega
    have hpos : 0 < p₁.length := List.length_pos.mpr h1
    apply hhead p₁.length hlt hpos
    rw [← hd, hds, hdc]
    rfl

theorem replaceAll_del_le (p : List Char) :
    ∀ n s, s.length ≤ n → (replaceAll p [] s).length ≤ s.length := by
  intro n
  induction n with
  | zero =>
    intro s hs
    have h0 : s = [] := List.length_eq_zero.mp (Nat.le_zero.mp hs)
    subst h0
    simp [replaceAll, replaceAllGo]
  | succ n ih =>
    intro s hs
    cases s with
    | nil => simp [replaceAll, replaceAllGo]
    | cons c cs =>
      have hcs : cs.length ≤ n := by
        simpa using Nat.le_of_succ_le_succ (by simpa using hs)
      by_cases hc : (!p.isEmpty && p.isPrefixOf (c :: cs)) = true
      · rw [replaceAll_cons_hit [] hc]
        simp only [List.nil_append]
        have hpne : p ≠ [] := by
          intro h0
          subst h0
          simp at hc
        have hplen : 0 < p.length := List.length_pos.mpr hpne
        have hdn : (List.drop p.length (c :: cs)).length ≤ n := by
          simp only [List.length_drop, List.length_cons]
          omega
        have hle := ih (List.drop p.length (c :: cs)) hdn
        simp only [List.length_drop, List.length_cons] at hle ⊢
        omega
      · rw [replaceAll_cons_miss [] hc]
        simp only [List.length_cons]
        have := ih cs hcs
        omega

theorem replaceAll_del_lt (p : List Char) (hp : p ≠ []) :
    ∀ n s, s.length ≤ n → p <:+: s →
      (replaceAll p [] s).length < s.length := by
  intro n
  induction n with
  | zero =>
    intro s hs hin
    have h0 : s = [] := List.length_eq_zero.mp (Nat.le_zero.mp hs)
    subst h0
    exact absurd (List.infix_nil.mp hin) hp
  | succ n ih =>
    intro s hs hin
    cases s with
    | nil => exact absurd (List.infix_nil.mp hin) hp
    | cons c cs =>
      have hcs : cs.length ≤ n := by
        simpa using Nat.le_of_succ_le_succ (by simpa using hs)
      by_cases hc : (!p.isEmpty && p.isPrefixOf (c :: cs)) = true
      · rw [replaceAll_cons_hit [] hc]
        simp only [List.nil_append]
        have hplen : 0 < p.length := List.length_pos.mpr hp
        have hle := replaceAll_del_le p cs.length (List.drop p.length (c :: cs))
          (by simp only [List.length_drop, List.length_cons]; omega)
        simp only [List.length_drop, List.length_cons] at hle ⊢
        omega
      · have hin' : p <:+: cs := by
          rcases List.infix_cons_iff.mp hin with hpre | h2
          · exact absurd (hit_of_pre hp hpre) hc
          · exact h2
        rw [replaceAll_cons_miss [] hc]
        simp only [List.length_cons]
        have := ih cs hcs hin'
        omega

/-! ### The raw-content rewrite on valid GitHub notebook URLs -/

/-- A valid GitHub-style notebook URL as decomposed by the raw-content
rewrite: `"https://github.com/" ++ A ++ "/blob/" ++ B`, where `A` is the
`org/repo` part and `B` the branch-and-path part, with the side
conditions that `github.com` occurs nowhere past the host and `/blob`
occurs only as the designated path segment. -/
def ValidGitHubNotebookURL (u : String) : Prop :=
  ∃ A B : List Char,
    u.data = "https://".data ++ ghPat ++ ('/' :: (A ++ blobPat ++ '/' :: B)) ∧
    ¬ ghPat <:+: ('/' :: (A ++ blobPat ++ '/' :: B)) ∧
    ¬ blobPat <:+: ('/' :: (A ++ blobPat.dropLast)) ∧
    ¬ blobPat <:+: ('/' :: B)

theorem ghRewrite_data_of_valid {u : String} {A B : List Char}
    (hu : u.data = "https://".data ++ ghPat ++ ('/' :: (A ++ blobPat ++ '/' :: B)))
    (h2 : ¬ ghPat <:+: ('/' :: (A ++ blobPat ++ '/' :: B)))
    (h3 : ¬ blobPat <:+: ('/' :: (A ++ blobPat.dropLast)))
    (h4 : ¬ blobPat <:+: ('/' :: B)) :
    (ghRewrite u).data
      = ("https://".data ++ rawHost ++ '/' :: A) ++ ('/' :: B) := by
  have step1 : replaceAll ghPat rawHost u.data
      = ("https://".data ++ rawHost) ++ ('/' :: (A ++ blobPat ++ '/' :: B)) := by
    rw [hu]
    rw [replaceAll_at ghPat rawHost (by decide) "https://".data _ (by decide)]
    rw [replaceAll_skip h2]
  have hre : ("https://".data ++ rawHost) ++ ('/' :: (A ++ blobPat ++ '/' :: B))
      = (("https://".data ++ rawHost ++ '/' :: A) ++ blobPat) ++ ('/' :: B) := by
    simp [List.cons_append, List.append_assoc]
  have hside : ¬ blobPat <:+:
      (("https://".data ++ rawHost ++ '/' :: A) ++ blobPat.dropLast) := by
    have he : ("https://".data ++ rawHost ++ '/' :: A) ++ blobPat.dropLast
        = ("https://".data ++ rawHost) ++ ('/' :: (A ++ blobPat.dropLast)) := by
      simp [List.cons_append, List.append_assoc]
    rw [he]
    exact notInfixSplit (by decide) h3 (by decide)
  have step2 : replaceAll blobPat []
      (("https://".data ++ rawHost) ++ ('/' :: (A ++ blobPat ++ '/' :: B)))
      = ("https://".data ++ rawHost ++ '/' :: A) ++ ('/' :: B) := by
    rw [hre]
    rw [replaceAll_at blobPat [] (by decide) _ _ hside]
    rw [replaceAll_skip h4]
    simp
  show replaceAll blobPat [] (replaceAll ghPat rawHost u.data) = _
  rw [step1, step2]

theorem ghRewrite_valid_clean {A B : List Char}
    (h2 : ¬ ghPat <:+: ('/' :: (A ++ blobPat ++ '/' :: B)))
    (h3 : ¬ blobPat <:+: ('/' :: (A ++ blobPat.dropLast)))
    (h4 : ¬ blobPat <:+: ('/' :: B)) :
    ¬ ghPat <:+: (("https://".data ++ rawHost ++ '/' :: A) ++ ('/' :: B)) ∧
    ¬ blobPat <:+: (("https://".data ++ rawHost ++ '/' :: A) ++ ('/' :: B)) := by
  have hA2 : ¬ ghPat <:+: ('/' :: A) := by
    intro hin
    apply h2
    refine hin.trans (List.IsPrefix.isInfix ?_)
    have hpre : ('/' :: A) <+: ('/' :: A) ++ (blobPat ++ '/' :: B) :=
      List.prefix_append _ _
    simpa [List.cons_append, List.append_assoc] using hpre
  have hB2 : ¬ ghPat <:+: ('/' :: B) := by
    intro hin
    apply h2
    refine hin.trans (List.IsSuffix.isInfix ?_)
    have hsuf : ('/' :: B) <:+ (('/' :: A) ++ blobPat) ++ ('/' :: B) :=
      List.suffix_append _ _
    simpa [List.cons_append, List.append_assoc] using hsuf
  have hA3 : ¬ blobPat <:+: ('/' :: A) := by
    intro hin
    apply h3
    refine hin.trans (List.IsPrefix.isInfix ?_)
    have hpre : ('/' :: A) <+: ('/' :: A) ++ blobPat.dropLast :=
      List.prefix_append _ _
    simpa [List.cons_append] using hpre
  have hmid : ('/' :: (A ++ '/' :: B)) = ('/' :: A) ++ ('/' :: B) := by
    simp [List.cons_append]
  have hre : ("https://".data ++ rawHost ++ '/' :: A) ++ ('/' :: B)
      = ("https://".data ++ rawHost) ++ ('/' :: (A ++ '/' :: B)) := by
    simp [List.cons_append, List.append_assoc]
  constructor
  · rw [hre]
    refine notInfixSplit (by decide) ?_ (by decide)
    rw [hmid]
    exact notInfixHeadSplit hA2 hB2 (by decide)
  · rw [hre]
    refine notInfixSplit (by decide) ?_ (by decide)
    rw [hmid]
    exact notInfixHeadSplit hA3 h4 (by decide)

theorem ghRewrite_stable {u : String} (h : ValidGitHubNotebookURL u) :
    ghRewrite (ghRewrite u) = ghRewrite u := by
  obtain ⟨A, B, hu, h2, h3, h4⟩ := h
  have hdata := ghRewrite_data_of_valid hu h2 h3 h4
  obtain ⟨hng, hnb⟩ := ghRewrite_valid_clean h2 h3 h4
  show String.mk (replaceAll blobPat [] (replaceAll ghPat rawHost (ghRewrite u).data))
      = ghRewrite u
  rw [hdata, replaceAll_skip hng, replaceAll_skip hnb, ← hdata]

theorem ghRewrite_id_of_clean {u : String}
    (hg : ¬ ghPat <:+: u.data) (hb : ¬ blobPat <:+: u.data) :
    ghRewrite u = u := by
  show String.mk (replaceAll blobPat [] (replaceAll ghPat rawHost u.data)) = u
  rw [replaceAll_skip hg, replaceAll_skip hb]

/-! ### Bookkeeping for the MongoDB model -/

/-- The list of records (empty or a singleton) appended to the collection
by one `save_to_mongodb` call when the insert succeeds.  This is a
specification helper, not source code: `save_mongo_append` proves that
`save_to_mongodb` with the appending `mongoInsert` oracle behaves like
appending exactly these records. -/
def savedRecords (parse : String → Option Json) (now : Nat) (url : String) :
    Option Json → List Record
  | none => []
  | some j =>
    if jsonTruthy j then
      match j with
      | .obj fields => [⟨url, .obj fields, now⟩]
      | .str s =>
        match parse s with
        | some v => [⟨url, v, now⟩]
        | none => []
      | _ => []
    else []

theorem save_mongo_append (parse : String → Option Json) (now : Nat)
    (url : String) (content : Option Json) (db : List Record) :
    save_to_mongodb parse now mongoInsert url content db
      = .ok (db ++ savedRecords parse now url content) := by
  cases content with
  | none => simp [save_to_mongodb, savedRecords]
  | some j =>
    by_cases ht : jsonTruthy j = true
    · cases j with
      | obj fields => simp [save_to_mongodb, savedRecords, ht, mongoInsert]
      | str s =>
        cases hp : parse s with
        | none => simp [save_to_mongodb, savedRecords, ht, hp]
        | some v => simp [save_to_mongodb, savedRecords, ht, hp, mongoInsert]
      | null => simp [save_to_mongodb, savedRecords, ht]
      | bool b => simp [save_to_mongodb, savedRecords, ht]
      | num n => simp [save_to_mongodb, savedRecords, ht]
      | arr elems => simp [save_to_mongodb, savedRecords, ht]
    · simp [save_to_mongodb, savedRecords, ht]

/-- The records appended by a whole `process_github_links` run with the
appending insert oracle (specification helper). -/
def processedRecords (http : String → HttpResult) (parse : String → Option Json)
    (now : Nat) : List String → List Record
  | [] => []
  | link :: rest =>
    savedRecords parse now link (fetch_github_notebook http parse link)
      ++ processedRecords http parse now rest

theorem process_mongo_append (http : String → HttpResult)
    (parse : String → Option Json) (now : Nat) :
    ∀ (links : List String) (db : List Record),
      process_github_links http parse now mongoInsert links db
        = .ok (db ++ processedRecords http parse now links) := by
  intro links
  induction links with
  | nil => intro db; simp [process_github_links, processedRecords]
  | cons link rest ih =>
    intro db
    simp [process_github_links, save_mongo_append, ih, processedRecords,
      List.append_assoc]

theorem processedRecords_append (http : String → HttpResult)
    (parse : String → Option Json) (now : Nat) (l₁ l₂ : List String) :
    processedRecords http parse now (l₁ ++ l₂)
      = processedRecords http parse now l₁ ++ processedRecords http parse now l₂ := by
  induction l₁ with
  | nil => simp [processedRecords]
  | cons link rest ih => simp [processedRecords, ih]

/-- The number of stored records carrying a given `url` value
(specification helper). -/
def countUrl (u : String) (db : List Record) : Nat :=
  (db.filter (fun r => r.url == u)).length

theorem countUrl_append (u : String) (x y : List Record) :
    countUrl u (x ++ y) = countUrl u x + countUrl u y := by
  simp [countUrl, List.filter_append]

theorem countUrl_self (u : String) (c : Json) (t : Nat) :
    countUrl u [⟨u, c, t⟩] = 1 := by
  simp [countUrl]

/-- An insert oracle on a run where the database write raises
(a network or server failure inside `insert_one`). -/
def failingInsert : Record → List Record → Except DbError (List Record) :=
  fun _ _ => .error .writeFailed

/-! ### Export lemmas -/

theorem ensureIpynb_suffix (f : List Char) : ipynbSuffix <:+ ensureIpynb f := by
  by_cases h : ipynbSuffix.isSuffixOf f = true
  · rw [ensureIpynb, if_pos h]
    exact List.isSuffixOf_iff_suffix.mp h
  · rw [ensureIpynb, if_neg h]
    exact List.suffix_append _ _

theorem export_events_shape (dump : Json → String) (writeOk : String → String → Bool) :
    ∀ (records : List Record) (count : Nat) (e : ExportEvent),
      e ∈ export_notebooks dump writeOk records count →
      ipynbSuffix <:+ e.filename.data ∧
        ∃ r c, r ∈ records ∧
          e.filename = String.mk (ensureIpynb (exportFilenameRaw r.url.data c)) ∧
          e.contents = dump r.content := by
  intro records
  induction records with
  | nil =>
    intro count e he
    simp [export_notebooks] at he
  | cons r rest ih =>
    intro count e he
    simp only [export_notebooks] at he
    by_cases hw : writeOk (String.mk (ensureIpynb (exportFilenameRaw r.url.data count)))
        (dump r.content) = true
    · rw [if_pos hw] at he
      rcases List.mem_cons.mp he with he1 | he2
      · subst he1
        exact ⟨ensureIpynb_suffix _, r, count, List.mem_cons_self _ _, rfl, rfl⟩
      · obtain ⟨hs, r', c', hr', hf, hc⟩ := ih (count + 1) e he2
        exact ⟨hs, r', c', List.mem_cons_of_mem _ hr', hf, hc⟩
    · rw [if_neg hw] at he
      obtain ⟨hs, r', c', hr', hf, hc⟩ := ih count e he
      exact ⟨hs, r', c', List.mem_cons_of_mem _ hr', hf, hc⟩

theorem export_skip_failed (dump : Json → String) (writeOk : String → String → Bool) :
    ∀ (r : Record) (rest : List Record) (count : Nat),
      writeOk (String.mk (ensureIpynb (exportFilenameRaw r.url.data count)))
        (dump r.content) = false →
      export_notebooks dump writeOk (r :: rest) count
        = export_notebooks dump writeOk rest count := by
  intro r rest count h
  simp only [export_notebooks]
  rw [if_neg (by simp [h])]

theorem export_all_ok_length (dump : Json → String) :
    ∀ (records : List Record) (count : Nat),
      (export_notebooks dump (fun _ _ => true) records count).length
        = records.length := by
  intro records
  induction records with
  | nil => intro count; rfl
  | cons r rest ih =>
    intro count
    simp [export_notebooks, ih]

/-! ### The claims -/

/-- C1 (code bug).  The partition of the hardcoded resource list by
source type fails to be a partition: because of the missing comma
between lines 527 and 528 of the source, the fused element `mergedLink`
contains both filter substrings, so it is selected into `colab_links`
AND into `github_links` and is handled by both processing paths.  This
theorem evaluates the code at that failing input. -/
theorem c1_partition_failing_input :
    resource_links.get? 290 = some mergedLink ∧
    mergedLink ∈ colab_links ∧ mergedLink ∈ github_links := by
  have hget : resource_links.get? 290 = some mergedLink := rfl
  have hmem : mergedLink ∈ resource_links := List.get?_mem hget
  exact ⟨hget, List.mem_filter.mpr ⟨hmem, rfl⟩, List.mem_filter.mpr ⟨hmem, rfl⟩⟩

/-- C2 (confirmed).  `fetch_github_notebook` returns either the parsed
JSON document or `none` and never propagates an error: a transport
failure, a status `≥ 400`, and an unparseable body each yield `none`;
any `some` result is the parse of a successfully fetched body; and a
`none` fetch result makes `save_to_mongodb` write no record. -/
theorem c2_fetch_never_raises (http : String → HttpResult)
    (parse : String → Option Json) (url : String) (now : Nat)
    (insert : Record → List Record → Except DbError (List Record))
    (db : List Record) :
    (http (ghRewrite url) = .netError →
      fetch_github_notebook http parse url = none) ∧
    (∀ status body, http (ghRewrite url) = .response status body →
      400 ≤ status → fetch_github_notebook http parse url = none) ∧
    (∀ status body, http (ghRewrite url) = .response status body →
      parse body = none → fetch_github_notebook http parse url = none) ∧
    (∀ j, fetch_github_notebook http parse url = some j →
      ∃ status body, http (ghRewrite url) = .response status body ∧
        status < 400 ∧ parse body = some j) ∧
    save_to_mongodb parse now insert url none db = .ok db := by
  refine ⟨?_, ?_, ?_, ?_, rfl⟩
  · intro h
    simp [fetch_github_notebook, h]
  · intro status body h hge
    simp only [fetch_github_notebook, h]
    rw [if_neg (by omega)]
  · intro status body h hp
    simp only [fetch_github_notebook, h]
    by_cases hlt : status < 400
    · rw [if_pos hlt, hp]
    · rw [if_neg hlt]
  · intro j hj
    cases hh : http (ghRewrite url) with
    | netError => simp [fetch_github_notebook, hh] at hj
    | response status body =>
      simp only [fetch_github_notebook, hh] at hj
      by_cases hlt : status < 400
      · rw [if_pos hlt] at hj
        exact ⟨status, body, rfl, hlt, hj⟩
      · rw [if_neg hlt] at hj
        exact absurd hj (by simp)

/-- Witness for C2 at concrete oracles: a transport error, a 404, and a
`none` fetch result saved to an untouched database. -/
theorem c2_fetch_never_raises_witness :
    fetch_github_notebook (fun _ => HttpResult.netError) (fun _ => none) "u" = none ∧
    fetch_github_notebook (fun _ => HttpResult.response 404 "x") (fun _ => none) "u" = none ∧
    save_to_mongodb (fun _ => none) 0 mongoInsert "u" none [] = .ok [] := by
  obtain ⟨h1, _, _, _, h5⟩ := c2_fetch_never_raises (fun _ => HttpResult.netError)
    (fun _ => none) "u" 0 mongoInsert []
  obtain ⟨_, h2, _, _, _⟩ := c2_fetch_never_raises (fun _ => HttpResult.response 404 "x")
    (fun _ => none) "u" 0 mongoInsert []
  exact ⟨h1 rfl, h2 404 "x" rfl (by omega), h5⟩

/-- C3 counterexample.  The claim's second half fails: the URL
`"https://blob.example.com/nb.ipynb"` does not contain the substring
`"github.com"`, yet the rewrite deletes the `"/blob"` occurrence inside
`"//blob.example.com"` and thereby changes the host part. -/
theorem c3_counterexample :
    hasSub ghPat "https://blob.example.com/nb.ipynb".data = false ∧
    ghRewrite "https://blob.example.com/nb.ipynb" = "https:/.example.com/nb.ipynb" ∧
    hostPart "https://blob.example.com/nb.ipynb" = "blob.example.com" ∧
    hostPart (ghRewrite "https://blob.example.com/nb.ipynb") ≠ "blob.example.com" := by
  refine ⟨rfl, rfl, rfl, ?_⟩
  decide

/-- C3 (amended).  The raw-content rewrite is stable on valid
GitHub-style notebook URLs; and for every URL string that contains
neither `"github.com"` nor `"/blob"` as a substring, the rewrite is the
identity, so in particular the host part is unchanged. -/
theorem c3_rewrite_stable_amended :
    (∀ u : String, ValidGitHubNotebookURL u →
      ghRewrite (ghRewrite u) = ghRewrite u) ∧
    (∀ u : String, hasSub ghPat u.data = false → hasSub blobPat u.data = false →
      ghRewrite u = u ∧ hostPart (ghRewrite u) = hostPart u) := by
  constructor
  · intro u h
    exact ghRewrite_stable h
  · intro u hg hb
    have hg' : ¬ ghPat <:+: u.data := by
      rw [← hasSub_iff, hg]
      simp
    have hb' : ¬ blobPat <:+: u.data := by
      rw [← hasSub_iff, hb]
      simp
    have hid := ghRewrite_id_of_clean hg' hb'
    exact ⟨hid, by rw [hid]⟩

/-- Witness for C3 (amended) at a concrete repository URL from the
hardcoded list and a concrete non-GitHub URL. -/
theorem c3_rewrite_stable_amended_witness :
    ghRewrite (ghRewrite
        "https://github.com/ds-modules/LINGUIS-110/blob/master/VOT/Assignment.ipynb")
      = ghRewrite
        "https://github.com/ds-modules/LINGUIS-110/blob/master/VOT/Assignment.ipynb" ∧
    ghRewrite "https://example.org/data/nb.ipynb" = "https://example.org/data/nb.ipynb" := by
  constructor
  · exact c3_rewrite_stable_amended.1 _
      ⟨"ds-modules/LINGUIS-110".data, "master/VOT/Assignment.ipynb".data,
        by decide, by decide, by decide, by decide⟩
  · exact (c3_rewrite_stable_amended.2 "https://example.org/data/nb.ipynb" rfl rfl).1

/-- C4 counterexample.  A fetch that returns the dictionary `{}` — valid
JSON, and a dictionary — is NOT persisted: Python `if content:` is false
for an empty dict, so `save_to_mongodb` writes no record, refuting "for
every URL whose fetch returns a notebook dictionary, a new record is
persisted". -/
theorem c4_counterexample :
    save_to_mongodb (fun _ => none) 0 mongoInsert "u" (some (Json.obj [])) []
      = .ok [] := rfl

/-- C4 (amended).  For every fetch result that is a nonempty dictionary,
`save_to_mongodb` appends exactly one fresh record carrying exactly the
fields `url` (the given URL, unchanged), `content` (the fetched document,
verbatim) and `date_saved` (the current time), leaving every existing
record untouched: it always inserts and never updates or replaces. -/
theorem c4_insert_fresh_amended (parse : String → Option Json) (now : Nat)
    (url : String) (fields : List (String × Json)) (db : List Record)
    (h : fields ≠ []) :
    save_to_mongodb parse now mongoInsert url (some (Json.obj fields)) db
      = .ok (db ++ [⟨url, Json.obj fields, now⟩]) := by
  rw [save_mongo_append]
  have ht : jsonTruthy (Json.obj fields) = true := by
    simp [jsonTruthy, h]
  simp [savedRecords, ht]

/-- Witness for C4 (amended) at a concrete nonempty notebook document. -/
theorem c4_insert_fresh_amended_witness :
    save_to_mongodb (fun _ => none) 7 mongoInsert "https://github.com/a/blob/b.ipynb"
      (some (Json.obj [("cells", Json.arr [])])) [⟨"w", Json.null, 1⟩]
      = .ok [⟨"w", Json.null, 1⟩,
          ⟨"https://github.com/a/blob/b.ipynb", Json.obj [("cells", Json.arr [])], 7⟩] :=
  c4_insert_fresh_amended (fun _ => none) 7 "https://github.com/a/blob/b.ipynb"
    [("cells", Json.arr [])] [⟨"w", Json.null, 1⟩] (List.cons_ne_nil _ _)

/-- C5 (confirmed).  The Colab ingestion path is a no-op: for every
input list, `process_colab_links` takes no oracle at all (no HTTP,
credential, or database-write capability appears in its type), returns
the database exactly as it was, and returns Python `None`. -/
theorem c5_colab_noop (links : List String) (db : List Record) :
    process_colab_links links db = (db, none) := rfl

/-- C6 (confirmed).  The hardcoded list contains a URL literally twice
(`dupGithubLink`, at indices 294 and 331), and ingestion performs no
deduplication by URL: for every link list containing the same URL at two
positions whose fetch yields a nonempty notebook dictionary, the run
appends at least two separate records carrying that same `url` value. -/
theorem c6_no_dedup :
    (resource_links.get? 294 = some dupGithubLink ∧
      resource_links.get? 331 = some dupGithubLink) ∧
    ∀ (http : String → HttpResult) (parse : String → Option Json) (now : Nat)
      (u : String) (fields : List (String × Json)) (l₁ l₂ l₃ : List String)
      (db : List Record),
      fetch_github_notebook http parse u = some (Json.obj fields) →
      fields ≠ [] →
      ∃ db₂, process_github_links http parse now mongoInsert
          (l₁ ++ u :: l₂ ++ u :: l₃) db = .ok db₂ ∧
        countUrl u db + 2 ≤ countUrl u db₂ := by
  refine ⟨⟨rfl, rfl⟩, ?_⟩
  intro http parse now u fields l₁ l₂ l₃ db hf hne
  refine ⟨_, process_mongo_append http parse now _ db, ?_⟩
  have ht : jsonTruthy (Json.obj fields) = true := by
    simp [jsonTruthy, hne]
  have hsaved : savedRecords parse now u (fetch_github_notebook http parse u)
      = [⟨u, Json.obj fields, now⟩] := by
    rw [hf]
    simp [savedRecords, ht]
  have hexp : processedRecords http parse now (l₁ ++ u :: l₂ ++ u :: l₃)
      = processedRecords http parse now l₁
        ++ ([⟨u, Json.obj fields, now⟩] ++ (processedRecords http parse now l₂
        ++ ([⟨u, Json.obj fields, now⟩] ++ processedRecords http parse now l₃))) := by
    rw [processedRecords_append]
    simp only [processedRecords]
    rw [processedRecords_append]
    simp only [processedRecords]
    rw [hsaved]
    simp [List.append_assoc]
  rw [hexp]
  simp only [countUrl_append, countUrl_self]
  omega

/-- Witness for C6: a concrete two-copy run appending two records with
the same url. -/
theorem c6_no_dedup_witness :
    ∃ db₂, process_github_links (fun _ => HttpResult.response 200 "")
        (fun _ => some (Json.obj [("cells", Json.arr [])])) 0 mongoInsert
        ([] ++ "https://github.com/a/blob/b.ipynb"
          :: [] ++ "https://github.com/a/blob/b.ipynb" :: []) []
        = .ok db₂ ∧
      countUrl "https://github.com/a/blob/b.ipynb" [] + 2
        ≤ countUrl "https://github.com/a/blob/b.ipynb" db₂ :=
  c6_no_dedup.2 (fun _ => HttpResult.response 200 "")
    (fun _ => some (Json.obj [("cells", Json.arr [])])) 0
    "https://github.com/a/blob/b.ipynb" [("cells", Json.arr [])] [] [] [] []
    rfl (List.cons_ne_nil _ _)

/-- C7 counterexample.  Not every database-write failure is caught:
`insert_one` sits outside any `try` block, so a failing insert aborts
`process_github_links` with the error instead of being logged and
skipped. -/
theorem c7_counterexample :
    process_github_links (fun _ => HttpResult.response 200 "")
      (fun _ => some (Json.obj [("cells", Json.arr [])])) 0 failingInsert
      ["https://github.com/a/blob/b.ipynb"] []
      = .error .writeFailed := rfl

/-- C7 (amended).  Missing or empty database configuration raises at
startup before any work begins; a run in which every fetch fails still
completes normally with the database untouched (fetch and parse
failures are caught); but a database-write failure is NOT caught — it
propagates out of `save_to_mongodb` as a process-fatal error. -/
theorem c7_fatal_errors_amended (s : String) (http : String → HttpResult)
    (parse : String → Option Json) (now : Nat) (l : List String)
    (db : List Record) (url : String) (fields : List (String × Json)) :
    startupCheck none = .error "Missing MONGODB_URI in environment variables" ∧
    startupCheck (some "") = .error "Missing MONGODB_URI in environment variables" ∧
    (s ≠ "" → startupCheck (some s) = .ok s) ∧
    ((∀ u, fetch_github_notebook http parse u = none) →
      process_github_links http parse now mongoInsert l db = .ok db) ∧
    (fields ≠ [] →
      save_to_mongodb parse now failingInsert url (some (Json.obj fields)) db
        = .error .writeFailed) := by
  refine ⟨rfl, rfl, ?_, ?_, ?_⟩
  · intro hs
    simp [startupCheck, hs]
  · intro hfetch
    induction l generalizing db with
    | nil => rfl
    | cons link rest ih =>
      simp only [process_github_links, hfetch link, save_to_mongodb]
      exact ih db
  · intro hne
    have ht : jsonTruthy (Json.obj fields) = true := by
      simp [jsonTruthy, hne]
    simp [save_to_mongodb, ht, failingInsert]

/-- Witness for C7 (amended): concrete configuration, an all-fetches-fail
run, and a concrete propagated write failure. -/
theorem c7_fatal_errors_amended_witness :
    startupCheck (some "mongodb://localhost") = .ok "mongodb://localhost" ∧
    process_github_links (fun _ => HttpResult.netError) (fun _ => none) 0
      mongoInsert ["https://github.com/a/blob/b.ipynb"] [] = .ok [] ∧
    save_to_mongodb (fun _ => none) 0 failingInsert "u"
      (some (Json.obj [("a", Json.null)])) [] = .error .writeFailed := by
  obtain ⟨_, _, h3, h4, h5⟩ := c7_fatal_errors_amended "mongodb://localhost"
    (fun _ => HttpResult.netError) (fun _ => none) 0
    ["https://github.com/a/blob/b.ipynb"] [] "u" [("a", Json.null)]
  exact ⟨h3 (by decide), h4 (fun u => rfl), h5 (List.cons_ne_nil _ _)⟩

/-- C8 (confirmed).  Every file-write event produced by the export pass
has a filename that ends in `".ipynb"` and is derived from the record's
`url` by the source's filename scheme, and contents equal to the
pretty-printed serialization (`dump`) of the record's `content` field; a
record whose write fails is skipped without stopping the export of the
remaining records; and a run with no failures writes exactly one file
per record. -/
theorem c8_export_files (dump : Json → String) (writeOk : String → String → Bool) :
    (∀ (records : List Record) (count : Nat) (e : ExportEvent),
      e ∈ export_notebooks dump writeOk records count →
      ipynbSuffix <:+ e.filename.data ∧
        ∃ r c, r ∈ records ∧
          e.filename = String.mk (ensureIpynb (exportFilenameRaw r.url.data c)) ∧
          e.contents = dump r.content) ∧
    (∀ (r : Record) (rest : List Record) (count : Nat),
      writeOk (String.mk (ensureIpynb (exportFilenameRaw r.url.data count)))
        (dump r.content) = false →
      export_notebooks dump writeOk (r :: rest) count
        = export_notebooks dump writeOk rest count) ∧
    (∀ (records : List Record) (count : Nat),
      (export_notebooks dump (fun _ _ => true) records count).length
        = records.length) :=
  ⟨export_events_shape dump writeOk, export_skip_failed dump writeOk,
    export_all_ok_length dump⟩

/-- Witness for C8: a concrete exported event's filename ends in
`".ipynb"`, and a concrete failing record is skipped while the rest of
the export proceeds. -/
theorem c8_export_files_witness :
    ipynbSuffix <:+
      (String.mk (ensureIpynb
        (exportFilenameRaw "https://github.com/a/blob/b.ipynb".data 0))).data ∧
    export_notebooks (fun _ => "x") (fun _ _ => false)
      [⟨"u", Json.null, 0⟩, ⟨"v", Json.null, 0⟩] 0
      = export_notebooks (fun _ => "x") (fun _ _ => false) [⟨"v", Json.null, 0⟩] 0 := by
  constructor
  · exact ((c8_export_files (fun _ => "x") (fun _ _ => true)).1
      [⟨"https://github.com/a/blob/b.ipynb", Json.null, 0⟩] 0
      ⟨String.mk (ensureIpynb
        (exportFilenameRaw "https://github.com/a/blob/b.ipynb".data 0)), "x"⟩
      (List.mem_cons_self _ _)).1
  · exact (c8_export_files (fun _ => "x") (fun _ _ => false)).2.1
      ⟨"u", Json.null, 0⟩ [⟨"v", Json.null, 0⟩] 0 rfl

/-- C9 (confirmed).  `save_to_mongodb` treats every falsy content value
as a fetch failure: whenever Python truthiness of the parsed content is
false — in particular for the empty dictionary `{}` — no record is
written, whatever the insert oracle. -/
theorem c9_falsy_content_dropped (parse : String → Option Json) (now : Nat)
    (insert : Record → List Record → Except DbError (List Record))
    (url : String) (j : Json) (db : List Record)
    (h : jsonTruthy j = false) :
    save_to_mongodb parse now insert url (some j) db = .ok db := by
  simp [save_to_mongodb, h]

/-- Witness for C9 at the empty dictionary. -/
theorem c9_falsy_content_dropped_witness :
    save_to_mongodb (fun _ => none) 3 mongoInsert "u" (some (Json.obj []))
      [⟨"w", Json.null, 1⟩] = .ok [⟨"w", Json.null, 1⟩] :=
  c9_falsy_content_dropped (fun _ => none) 3 mongoInsert "u" (Json.obj [])
    [⟨"w", Json.null, 1⟩] rfl

/-- C10 (confirmed).  The `/blob` deletion is substring-based, not
segment-based: a path segment `/blobs` is rewritten to `s` (concrete
evaluation, altering the segment), and every URL string containing
`"/blob"` anywhere (and no `"github.com"`) is strictly shortened by the
rewrite. -/
theorem c10_blob_substring_based :
    ghRewrite "https://example.com/blobs/x.ipynb" = "https://example.coms/x.ipynb" ∧
    ∀ u : String, hasSub blobPat u.data = true → hasSub ghPat u.data = false →
      (ghRewrite u).length < u.length := by
  constructor
  · rfl
  · intro u hb hg
    have hg' : ¬ ghPat <:+: u.data := by
      rw [← hasSub_iff, hg]
      simp
    have hb' : blobPat <:+: u.data := hasSub_iff.mp hb
    show (String.mk (replaceAll blobPat [] (replaceAll ghPat rawHost u.data))).length
      < u.length
    rw [replaceAll_skip hg']
    show (replaceAll blobPat [] u.data).length < u.data.length
    exact replaceAll_del_lt blobPat (by decide) u.data.length u.data (le_refl _) hb'

/-- Witness for C10 at a concrete URL containing a `/blob` segment. -/
theorem c10_blob_substring_based_witness :
    (ghRewrite "https://x.org/a/blob/c.ipynb").length
      < ("https://x.org/a/blob/c.ipynb" : String).length :=
  c10_blob_substring_based.2 "https://x.org/a/blob/c.ipynb" rfl rfl

end SaveResources
